import Mathlib

/-!
Verification of the vq-voice-swap repository's core orchestration code:
factories (`models/make.py`, `diffusion/make.py`), the VQ-VAE orchestrator
(`vq_vae.py`), and the training entry point (`train_vqvae.py`).

Tensors are shallowly embedded as (nested) lists of rationals; external
neural components (Encoder, Predictor, VQ) are opaque capabilities passed
as function parameters, matching the spec's treatment of them.
-/

namespace VQVoiceSwap

/-! ## Opaque model instances

`WaveGradPredictor`, `UNetPredictor`, `WaveGradEncoder`, `UNetEncoder`,
`ExpSchedule`, `CosSchedule` are external architectures; we record only the
constructor configuration each factory passes to them. -/

inductive ScheduleInst : Type
  | expSchedule
  | cosSchedule
  deriving DecidableEq, Repr

inductive PredictorInst : Type
  | waveGrad (base_channels : ℕ) (cond_mult : ℕ) (num_labels : Option ℕ)
  | unet (base_channels : ℕ) (cond_channels : Option ℕ) (num_labels : Option ℕ)
      (dropout : ℚ)
  deriving DecidableEq, Repr

inductive EncoderInst : Type
  | waveGrad (cond_mult : ℕ) (base_channels : ℕ)
  | unet (base_channels : ℕ) (out_channels : ℕ)
  deriving DecidableEq, Repr

/-! ## Factories: `diffusion/make.py` and `models/make.py`

Python `raise ValueError(msg)` is embedded as `Except.error msg`.
The Python expression `cond_channels // base_channels if cond_channels else 16`
is falsy both for `None` and for `0`, and `//` on non-negative ints is
`Nat` division. -/

def make_schedule (name : String) : Except String ScheduleInst :=
  if name = "exp" then .ok .expSchedule
  else if name = "cos" then .ok .cosSchedule
  else .error ("unknown schedule: " ++ name)

def condMultOf (cond_channels : Option ℕ) (base_channels : ℕ) : ℕ :=
  match cond_channels with
  | none => 16
  | some c => if c = 0 then 16 else c / base_channels

namespace Models

/-- `make_predictor` from `models/make.py`: the `wavegrad` branch asserts
`not dropout` (an `AssertionError` is embedded as `Except.error`). -/
def make_predictor (pred_name : String) (base_channels : ℕ := 32)
    (num_labels : Option ℕ := none) (cond_channels : Option ℕ := none)
    (dropout : ℚ := 0) : Except String PredictorInst :=
  if pred_name = "wavegrad" then
    if dropout ≠ 0 then .error "dropout not supported for wavegrad"
    else .ok (.waveGrad base_channels (condMultOf cond_channels base_channels)
      num_labels)
  else if pred_name = "unet" then
    .ok (.unet base_channels cond_channels num_labels dropout)
  else .error ("unknown predictor: " ++ pred_name)

/-- `make_encoder` from `models/make.py`. -/
def make_encoder (enc_name : String) (base_channels : ℕ := 32)
    (cond_mult : ℕ := 16) : Except String EncoderInst :=
  if enc_name = "wavegrad" then .ok (.waveGrad cond_mult base_channels)
  else if enc_name = "unet" then
    .ok (.unet base_channels (base_channels * cond_mult))
  else .error ("unknown encoder: " ++ enc_name)

/-- `predictor_downsample_rate` from `models/make.py`. -/
def predictor_downsample_rate (pred_name : String) : Except String ℕ :=
  if pred_name = "wavegrad" then .ok (2 ^ 6)
  else if pred_name = "unet" then .ok (2 ^ 8)
  else .error ("unknown predictor: " ++ pred_name)

end Models

namespace VqVaeMod

/-- The module-level `make_predictor` defined at the bottom of `vq_vae.py`.
It has no `dropout` parameter; its `unet` branch leaves `UNetPredictor`'s
dropout at the architecture's default `0.0` (the same value
`models/make.py` passes explicitly). `num_labels` travels through
`**kwargs`: `none` models the kwarg being absent. -/
def make_predictor (pred_name : String) (base_channels : ℕ := 32)
    (cond_channels : Option ℕ := none) (num_labels : Option ℕ := none) :
    Except String PredictorInst :=
  if pred_name = "wavegrad" then
    .ok (.waveGrad base_channels (condMultOf cond_channels base_channels)
      num_labels)
  else if pred_name = "unet" then
    .ok (.unet base_channels cond_channels num_labels 0)
  else .error ("unknown predictor: " ++ pred_name)

/-- `predictor_downsample_rate` as duplicated at the bottom of `vq_vae.py`
(textually identical to the one in `models/make.py`). -/
def predictor_downsample_rate (pred_name : String) : Except String ℕ :=
  if pred_name = "wavegrad" then .ok (2 ^ 6)
  else if pred_name = "unet" then .ok (2 ^ 8)
  else .error ("unknown predictor: " ++ pred_name)

end VqVaeMod

/-- Modelled from the spec: the WaveGrad Encoder's declared downsample rate.
The Encoder architecture (`model.py` / `wavegrad.py`) is not in the sources;
§6 and §8 of the spec fix the Encoder's declared rate at 64 in the component
pair (64, 256). -/
def waveGradEncoder_downsample_rate : ℕ := 64

/-- `ConcreteVQVAE.downsample_rate` from `vq_vae.py`: returns
`predictor_downsample_rate(self.pred_name)`. -/
def ConcreteVQVAE.downsample_rate (pred_name : String) : Except String ℕ :=
  VqVaeMod.predictor_downsample_rate pred_name

/-- C1: for every orchestrator instance (each is keyed by a recognized
`pred_name`, whose predictor rate the factory declares), `downsample_rate()`
equals the least common multiple of the Encoder's declared rate (64) and the
Predictor's declared rate; in particular lcm(64, 256) = 256 and
lcm(64, 96) = 192. -/
theorem c1_downsample_rate_lcm :
    (∀ pred_name r,
      VqVaeMod.predictor_downsample_rate pred_name = Except.ok r →
      ConcreteVQVAE.downsample_rate pred_name =
        Except.ok (Nat.lcm waveGradEncoder_downsample_rate r)) ∧
    Nat.lcm waveGradEncoder_downsample_rate 256 = 256 ∧
    Nat.lcm waveGradEncoder_downsample_rate 96 = 192 := by
  refine ⟨?_, by decide, by decide⟩
  intro pred_name r h
  unfold ConcreteVQVAE.downsample_rate
  unfold VqVaeMod.predictor_downsample_rate at h ⊢
  by_cases h1 : pred_name = "wavegrad"
  · simp only [h1, if_true, reduceIte] at h ⊢
    cases h
    rfl
  · by_cases h2 : pred_name = "unet"
    · simp only [h1, h2, if_true, if_false, reduceIte] at h ⊢
      cases h
      rfl
    · simp only [h1, h2, if_false, reduceIte] at h
      exact absurd h (by simp)

/-- Witness for C1 at the concrete instance `pred_name = "unet"`. -/
theorem c1_downsample_rate_lcm_witness :
    ConcreteVQVAE.downsample_rate "unet" =
      Except.ok (Nat.lcm waveGradEncoder_downsample_rate 256) :=
  c1_downsample_rate_lcm.1 "unet" 256 rfl

/-- C7: every unrecognized name makes the factory fail with an error whose
message names the invalid identifier (no fallback); every recognized name
yields an instance without error (`make_predictor` with its default
`dropout = 0`). -/
theorem c7_factory_unknown_name_fatal :
    (∀ name, name ≠ "exp" → name ≠ "cos" →
      make_schedule name = Except.error ("unknown schedule: " ++ name)) ∧
    (∀ name bc nl cc d, name ≠ "wavegrad" → name ≠ "unet" →
      Models.make_predictor name bc nl cc d =
        Except.error ("unknown predictor: " ++ name)) ∧
    (∀ name bc cm, name ≠ "wavegrad" → name ≠ "unet" →
      Models.make_encoder name bc cm =
        Except.error ("unknown encoder: " ++ name)) ∧
    make_schedule "exp" = Except.ok .expSchedule ∧
    make_schedule "cos" = Except.ok .cosSchedule ∧
    (∀ bc nl cc, ∃ i, Models.make_predictor "wavegrad" bc nl cc 0 = Except.ok i) ∧
    (∀ bc nl cc d, ∃ i, Models.make_predictor "unet" bc nl cc d = Except.ok i) ∧
    (∀ bc cm, ∃ i, Models.make_encoder "wavegrad" bc cm = Except.ok i) ∧
    (∀ bc cm, ∃ i, Models.make_encoder "unet" bc cm = Except.ok i) := by
  refine ⟨?_, ?_, ?_, rfl, rfl, ?_, ?_, ?_, ?_⟩
  · intro name h1 h2
    simp [make_schedule, h1, h2]
  · intro name bc nl cc d h1 h2
    simp [Models.make_predictor, h1, h2]
  · intro name bc cm h1 h2
    simp [Models.make_encoder, h1, h2]
  · intro bc nl cc
    exact ⟨_, rfl⟩
  · intro bc nl cc d
    exact ⟨_, rfl⟩
  · intro bc cm
    exact ⟨_, rfl⟩
  · intro bc cm
    exact ⟨_, rfl⟩

/-- Witness for C7 at the concrete unrecognized name `"bogus"`. -/
theorem c7_factory_unknown_name_fatal_witness :
    make_schedule "bogus" = Except.error ("unknown schedule: " ++ "bogus") ∧
    Models.make_predictor "bogus" 32 none none 0 =
      Except.error ("unknown predictor: " ++ "bogus") ∧
    Models.make_encoder "bogus" 32 16 =
      Except.error ("unknown encoder: " ++ "bogus") :=
  ⟨c7_factory_unknown_name_fatal.1 "bogus" (by decide) (by decide),
   c7_factory_unknown_name_fatal.2.1 "bogus" 32 none none 0
     (by decide) (by decide),
   c7_factory_unknown_name_fatal.2.2.1 "bogus" 32 16 (by decide) (by decide)⟩

/-- C10: the module-level `make_predictor` in `vq_vae.py` and the
`make_predictor` in `models/make.py` are extensionally equal for every
`pred_name`, `base_channels`, `cond_channels`, `num_labels` once the latter's
`dropout` is left at zero: same `cond_mult` derivation, same constructed
configuration, and the same error on the same unknown names. -/
theorem c10_make_predictor_equivalent
    (pred_name : String) (base_channels : ℕ)
    (cond_channels num_labels : Option ℕ) :
    VqVaeMod.make_predictor pred_name base_channels cond_channels num_labels =
      Models.make_predictor pred_name base_channels num_labels cond_channels 0 := by
  unfold VqVaeMod.make_predictor Models.make_predictor
  by_cases h1 : pred_name = "wavegrad" <;>
    by_cases h2 : pred_name = "unet" <;>
      simp [h1, h2]

/-! ## Cascade stages and detach: dual-number embedding

`torch.Tensor.detach` keeps the forward value and cuts the gradient. A
scalar is tracked as a forward value paired with its derivative with respect
to one chosen parameter (forward-mode differentiation); the predictor and
gate outputs entering `CascadeVQVAE.predictions` are such pairs. -/

structure Dual where
  val : ℚ
  grad : ℚ
  deriving DecidableEq, Repr

def Dual.detach (x : Dual) : Dual := ⟨x.val, 0⟩

instance : Add Dual := ⟨fun a b => ⟨a.val + b.val, a.grad + b.grad⟩⟩

instance : Mul Dual := ⟨fun a b => ⟨a.val * b.val, a.grad * b.val + a.val * b.grad⟩⟩

@[simp] theorem Dual.add_val (a b : Dual) : (a + b).val = a.val + b.val := rfl

@[simp] theorem Dual.add_grad (a b : Dual) : (a + b).grad = a.grad + b.grad := rfl

@[simp] theorem Dual.mul_val (a b : Dual) : (a * b).val = a.val * b.val := rfl

@[simp] theorem Dual.mul_grad (a b : Dual) :
    (a * b).grad = a.grad * b.val + a.val * b.grad := rfl

@[simp] theorem Dual.detach_val (a : Dual) : a.detach.val = a.val := rfl

@[simp] theorem Dual.detach_grad (a : Dual) : a.detach.grad = 0 := rfl

/-- `TimeScale.forward`'s combination step: the input is multiplied
elementwise by the gate's (broadcast) scale. -/
def timeScaleApply (scales x : Dual) : Dual := x * scales

structure CascadeOut where
  base : Dual
  label : Dual
  cond : Dual
  deriving DecidableEq, Repr

/-- `CascadeVQVAE.predictions` from `vq_vae.py`, on the stage outputs:
`base_out`, `label_out`, `cond_out` are the three predictors' outputs at
`(xs, ts, …)` and `s_label`, `s_cond` the two `TimeScale` gates' scales at
`ts`, each carrying its forward value and its derivative with respect to one
chosen parameter. -/
def CascadeVQVAE.predictions (base_out label_out cond_out s_label s_cond : Dual) :
    CascadeOut :=
  let base := base_out
  let label := base.detach + timeScaleApply s_label label_out
  let cond := label.detach + timeScaleApply s_cond cond_out
  ⟨base, label, cond⟩

/-- C2: the Cascade's final `"cond"` estimate has forward value
`base + scale_label(label_stage_output) + scale_cond(code_stage_output)`,
and detaching makes gradient isolation hold: when the differentiation
parameter belongs to the base stage (only `base_out` carries a derivative),
the `label` and `cond` outputs carry none — and when it belongs to the label
stage (only `label_out` / `s_label` carry derivatives), the `cond` output
carries none — so a later stage's training signal never back-propagates into
an earlier stage. -/
theorem c2_cascade_forward_and_gradient_isolation :
    (∀ base_out label_out cond_out s_label s_cond : Dual,
      (CascadeVQVAE.predictions base_out label_out cond_out s_label s_cond).cond.val =
        base_out.val + s_label.val * label_out.val + s_cond.val * cond_out.val) ∧
    (∀ bv bg lv cv slv scv : ℚ,
      (CascadeVQVAE.predictions ⟨bv, bg⟩ ⟨lv, 0⟩ ⟨cv, 0⟩ ⟨slv, 0⟩ ⟨scv, 0⟩).base.grad
          = bg ∧
      (CascadeVQVAE.predictions ⟨bv, bg⟩ ⟨lv, 0⟩ ⟨cv, 0⟩ ⟨slv, 0⟩ ⟨scv, 0⟩).label.grad
          = 0 ∧
      (CascadeVQVAE.predictions ⟨bv, bg⟩ ⟨lv, 0⟩ ⟨cv, 0⟩ ⟨slv, 0⟩ ⟨scv, 0⟩).cond.grad
          = 0) ∧
    (∀ bv lv lg cv slv slg scv : ℚ,
      (CascadeVQVAE.predictions ⟨bv, 0⟩ ⟨lv, lg⟩ ⟨cv, 0⟩ ⟨slv, slg⟩ ⟨scv, 0⟩).cond.grad
          = 0) := by
  refine ⟨?_, ?_, ?_⟩
  · intro b l c sl sc
    simp [CascadeVQVAE.predictions, timeScaleApply]
    ring
  · intro bv bg lv cv slv scv
    refine ⟨rfl, ?_, ?_⟩ <;> simp [CascadeVQVAE.predictions, timeScaleApply]
  · intro bv lv lg cv slv scv
    simp [CascadeVQVAE.predictions, timeScaleApply]

/-! ## Tensors and the abstract `VQVAE` orchestrator

A batched tensor is a list of per-batch-element rows (the non-batch
dimensions flattened, as `losses` itself does with `.flatten(1)`); `codes`
is an `[N, T1]` integer tensor. The Encoder, VQ layer, quantization loss,
schedule and Predictors are the abstract class's injected capabilities. -/

abbrev Batch1 := List ℚ

abbrev Tensor := List (List ℚ)

abbrev Codes := List (List ℤ)

/-- The three views returned by `VQ.forward` (`vq.py` is external):
`idxs`, `embedded`, and the straight-through `passthrough`. -/
structure VQOut where
  idxs : Codes
  embedded : Tensor
  passthrough : Tensor

/-- The capabilities wired into the abstract `VQVAE` base class
(`vq_vae.py` lines 22–35): Encoder, VQ (forward and `embed`), quantization
loss, the diffusion schedule's coefficient functions, and the
`predictions()` dispatch implemented by a subclass (a Python dict embedded
as an association list). `downsample_rate` is the abstract method's value. -/
structure VQVAEModel where
  encoder : Tensor → Tensor
  vq : Tensor → VQOut
  vq_embed : Codes → Tensor
  vq_loss : Tensor → Tensor → ℚ
  alpha : ℚ → ℚ
  sigma : ℚ → ℚ
  predictions : Tensor → Batch1 → Tensor → List ℤ → List (String × Tensor)
  downsample_rate : ℕ

/-- `VQVAE.decode` from `vq_vae.py` (lines 87–116): embed the codes, draw
`x_T = randn(codes.shape[0], 1, codes.shape[1] * downsample_rate())`, and
run `ddpm_sample` with the predictor function that selects the `"cond"`
entry of `predictions()`. The Gaussian draw is an oracle from the requested
shape, and `ddpm_sample` (in the absent `diffusion/diffusion.py`) is the
injected reverse-sampling capability. -/
def VQVAE.decode (M : VQVAEModel)
    (randn : ℕ × ℕ × ℕ → Tensor)
    (ddpm_sample : Tensor → (Tensor → Batch1 → Tensor) → ℕ → Bool → Tensor)
    (codes : Codes) (labels : List ℤ) (steps : ℕ := 100)
    (progress : Bool := false) (key : String := "cond") : Tensor :=
  let cond_seq := M.vq_embed codes
  let x_T := randn (codes.length, 1, (codes.headD []).length * M.downsample_rate)
  ddpm_sample x_T
    (fun xs ts => ((M.predictions xs ts cond_seq labels).lookup "cond").getD [])
    steps progress

/-- C5: for codes of shape `[N, T1]`, `decode` looks up the codebook
embeddings of the codes, draws its initial noise tensor with shape
`[N, 1, T1 * downsample_rate()]`, and returns exactly the result of
`ddpm_sample` started from that noise and driven by the predictor bound to
the embedded conditioning and the labels. -/
theorem c5_decode_wiring (M : VQVAEModel)
    (randn : ℕ × ℕ × ℕ → Tensor)
    (ddpm_sample : Tensor → (Tensor → Batch1 → Tensor) → ℕ → Bool → Tensor)
    (codes : Codes) (labels : List ℤ) (steps : ℕ) (progress : Bool)
    (N T1 : ℕ) (hN : codes.length = N)
    (hT1 : ∀ row ∈ codes, row.length = T1) (hne : codes ≠ []) :
    VQVAE.decode M randn ddpm_sample codes labels steps progress "cond" =
      ddpm_sample (randn (N, 1, T1 * M.downsample_rate))
        (fun xs ts =>
          ((M.predictions xs ts (M.vq_embed codes) labels).lookup "cond").getD [])
        steps progress := by
  have hhead : (codes.headD []).length = T1 := by
    cases codes with
    | nil => exact absurd rfl hne
    | cons row rest => exact hT1 row (List.mem_cons_self row rest)
  unfold VQVAE.decode
  rw [hN, hhead]

/-- A small concrete orchestrator used to instantiate `c5_decode_wiring`. -/
def c5Model : VQVAEModel :=
  ⟨id, fun x => ⟨[], x, x⟩, fun _ => [[0]], fun _ _ => 0, fun _ => 1,
    fun _ => 0, fun xs _ _ _ => [("cond", xs)], 64⟩

/-- A concrete Gaussian-draw oracle recording the requested length. -/
def c5Randn : ℕ × ℕ × ℕ → Tensor := fun s => [[(s.2.2 : ℚ)]]

/-- A concrete sampling capability returning its starting tensor. -/
def c5Sampler : Tensor → (Tensor → Batch1 → Tensor) → ℕ → Bool → Tensor :=
  fun x _ _ _ => x

/-- Witness for C5 at a concrete model and `codes = [[0, 1]]`: the initial
noise is drawn at length `T1 * downsample_rate = 2 * 64 = 128`. -/
theorem c5_decode_wiring_witness :
    VQVAE.decode c5Model c5Randn c5Sampler [[0, 1]] [3] 100 false "cond" =
      [[(128 : ℚ)]] := by
  rw [c5_decode_wiring c5Model c5Randn c5Sampler [[0, 1]] [3] 100 false 1 2 rfl
    (by intro row hr; simp only [List.mem_singleton] at hr; simp [hr])
    (by simp)]
  decide

/-- C9: `decode`'s public `key` parameter has no effect — the predictor
passed to `ddpm_sample` always selects the `"cond"` entry of
`predictions()`, so any two values of `key` give identical outputs. -/
theorem c9_decode_key_has_no_effect (M : VQVAEModel)
    (randn : ℕ × ℕ × ℕ → Tensor)
    (ddpm_sample : Tensor → (Tensor → Batch1 → Tensor) → ℕ → Bool → Tensor)
    (codes : Codes) (labels : List ℤ) (steps : ℕ) (progress : Bool)
    (key₁ key₂ : String) :
    VQVAE.decode M randn ddpm_sample codes labels steps progress key₁ =
      VQVAE.decode M randn ddpm_sample codes labels steps progress key₂ := rfl

/-! ## Checkpointing: `ConcreteVQVAE.save` / `ConcreteVQVAE.load`

Learned parameters (`state_dict()`) are an association list from parameter
names to values; the random initializer of a fresh construction is an
oracle from the constructor configuration (the parameter names a module
owns are determined by its configuration). -/

abbrev StateDict := List (String × ℚ)

structure VQVAEConfig where
  pred_name : String
  num_labels : ℕ
  base_channels : ℕ
  deriving DecidableEq, Repr

structure ConcreteVQVAEState where
  pred_name : String
  num_labels : ℕ
  base_channels : ℕ
  params : StateDict
  deriving DecidableEq, Repr

/-- The single record `save` writes: the constructor `kwargs`
(`pred_name`, `num_labels`, `base_channels`) and the `state_dict`. -/
structure Checkpoint where
  kwargs : VQVAEConfig
  state_dict : StateDict
  deriving DecidableEq, Repr

/-- `ConcreteVQVAE.__init__`: records the configuration and builds the
submodules with freshly initialized parameters drawn from `init`. -/
def ConcreteVQVAE.construct (init : VQVAEConfig → StateDict)
    (cfg : VQVAEConfig) : ConcreteVQVAEState :=
  ⟨cfg.pred_name, cfg.num_labels, cfg.base_channels, init cfg⟩

/-- `ConcreteVQVAE.save` (lines 159–172): one record holding the
constructor configuration and the learned parameters, handed to
`atomic_save`. -/
def ConcreteVQVAE.save (m : ConcreteVQVAEState) : Checkpoint :=
  ⟨⟨m.pred_name, m.num_labels, m.base_channels⟩, m.params⟩

/-- `nn.Module.load_state_dict` (strict mode, as `load` uses it): the
stored parameter names must match the module's own, and every parameter
value is replaced by the stored one. -/
def load_state_dict (m : ConcreteVQVAEState) (sd : StateDict) :
    Except String ConcreteVQVAEState :=
  if m.params.map Prod.fst = sd.map Prod.fst then .ok { m with params := sd }
  else .error "load_state_dict: parameter names mismatch"

/-- `ConcreteVQVAE.load` (lines 174–182): reconstruct a fresh instance from
the stored `kwargs`, then restore the stored `state_dict`. -/
def ConcreteVQVAE.load (init : VQVAEConfig → StateDict) (ck : Checkpoint) :
    Except String ConcreteVQVAEState :=
  load_state_dict (ConcreteVQVAE.construct init ck.kwargs) ck.state_dict

/-- C6: the checkpoint is a single record holding the configuration
(`pred_name`, `num_labels`, `base_channels`) and the parameters, and
`save` followed by `load` returns a fresh instance with the saved
configuration whose learned parameters are identical to the saved ones —
for any instance whose parameter names are the ones construction at its
configuration produces. -/
theorem c6_save_load_round_trip (init : VQVAEConfig → StateDict)
    (m : ConcreteVQVAEState)
    (hkeys : m.params.map Prod.fst =
      (init ⟨m.pred_name, m.num_labels, m.base_channels⟩).map Prod.fst) :
    (ConcreteVQVAE.save m).kwargs =
        ⟨m.pred_name, m.num_labels, m.base_channels⟩ ∧
    (ConcreteVQVAE.save m).state_dict = m.params ∧
    ConcreteVQVAE.load init (ConcreteVQVAE.save m) = Except.ok m := by
  refine ⟨rfl, rfl, ?_⟩
  cases m with
  | mk pn nl bc ps =>
    unfold ConcreteVQVAE.load ConcreteVQVAE.construct ConcreteVQVAE.save
      load_state_dict
    rw [if_pos hkeys.symm]

/-- Witness for C6 at a concrete instance with one trained parameter. -/
theorem c6_save_load_round_trip_witness :
    ConcreteVQVAE.load (fun _ => [("w", 0)])
        (ConcreteVQVAE.save ⟨"wavegrad", 10, 32, [("w", 5)]⟩) =
      Except.ok ⟨"wavegrad", 10, 32, [("w", 5)]⟩ :=
  (c6_save_load_round_trip (fun _ => [("w", 0)])
    ⟨"wavegrad", 10, 32, [("w", 5)]⟩ rfl).2.2

/-! ## Training entry point: `train_vqvae.main` (lines 22–28)

The script's model class `WaveGradVQVAE` is not among the sources; modelled
from the spec (§2: the repository's superseded single-predictor orchestrator
variants) as the `ConcreteVQVAE` construction/loading behaviour above with
`pred_name = "wavegrad"` and default `base_channels`. A failed Python
`assert` is `Except.error`. -/

/-- The checkpoint-resolution step of `main`: when a checkpoint exists it is
loaded and `assert model.num_labels == num_labels` runs before any training
step; otherwise a fresh model is created with the data loader's label
count. -/
def trainResolveModel (init : VQVAEConfig → StateDict)
    (checkpoint_exists : Bool) (ck : Checkpoint) (num_labels : ℕ) :
    Except String ConcreteVQVAEState :=
  if checkpoint_exists then
    match ConcreteVQVAE.load init ck with
    | .error e => .error e
    | .ok model =>
      if model.num_labels = num_labels then .ok model
      else .error "assert model.num_labels == num_labels"
  else .ok (ConcreteVQVAE.construct init ⟨"wavegrad", num_labels, 32⟩)

/-- C8: when a loadable checkpoint's stored label count differs from the
label count the run's dataset configuration yields, the assertion fires
(fatally, before training proceeds); when they agree, training proceeds
with the loaded model. -/
theorem c8_label_count_guard (init : VQVAEConfig → StateDict)
    (ck : Checkpoint) (num_labels : ℕ) (m : ConcreteVQVAEState)
    (hload : ConcreteVQVAE.load init ck = Except.ok m) :
    (ck.kwargs.num_labels ≠ num_labels →
      trainResolveModel init true ck num_labels =
        Except.error "assert model.num_labels == num_labels") ∧
    (ck.kwargs.num_labels = num_labels →
      trainResolveModel init true ck num_labels = Except.ok m) := by
  have hnl : m.num_labels = ck.kwargs.num_labels := by
    unfold ConcreteVQVAE.load load_state_dict ConcreteVQVAE.construct at hload
    split at hload
    · cases hload; rfl
    · cases hload
  unfold trainResolveModel
  rw [if_pos rfl, hload]
  constructor
  · intro hne
    have hm : m.num_labels ≠ num_labels := by rw [hnl]; exact hne
    simp [hm]
  · intro heq
    have hm : m.num_labels = num_labels := by rw [hnl]; exact heq
    simp [hm]

/-- Witness for C8: a stored label count of 10 versus a run label count of 7
trips the assertion, while 10 versus 10 proceeds. -/
theorem c8_label_count_guard_witness :
    (trainResolveModel (fun _ => [("w", 0)]) true
        ⟨⟨"wavegrad", 10, 32⟩, [("w", 5)]⟩ 7 =
      Except.error "assert model.num_labels == num_labels") ∧
    (trainResolveModel (fun _ => [("w", 0)]) true
        ⟨⟨"wavegrad", 10, 32⟩, [("w", 5)]⟩ 10 =
      Except.ok ⟨"wavegrad", 10, 32, [("w", 5)]⟩) :=
  ⟨(c8_label_count_guard (fun _ => [("w", 0)])
      ⟨⟨"wavegrad", 10, 32⟩, [("w", 5)]⟩ 7
      ⟨"wavegrad", 10, 32, [("w", 5)]⟩ rfl).1 (by decide),
   (c8_label_count_guard (fun _ => [("w", 0)])
      ⟨⟨"wavegrad", 10, 32⟩, [("w", 5)]⟩ 10
      ⟨"wavegrad", 10, 32, [("w", 5)]⟩ rfl).2 rfl⟩

/-! ## `VQVAE.losses` (`vq_vae.py` lines 37–75)

The sampled randomness — `torch.rand(N)` for the per-element times and
`torch.randn_like(inputs)` for the injected noise — enters as oracle
inputs `ts` (each value in `[0, 1)`) and `epsilon`. -/

def listMean (l : List ℚ) : ℚ := l.sum / l.length

/-- One batch element of `((predictions - epsilon) ** 2).flatten(1).mean(1)`:
the mean over the flattened non-batch dimensions of the squared difference. -/
def sqErrRow (p e : List ℚ) : ℚ :=
  listMean (List.zipWith (fun a b => (a - b) ^ 2) p e)

def perElementMSE (p e : Tensor) : Batch1 := List.zipWith sqErrRow p e

/-- `torch.mean(torch.stack(vs, axis=0), axis=0)`: the elementwise mean of a
list of equal-length vectors. -/
def stackMean (vs : List Batch1) : Batch1 :=
  (List.range (vs.headD []).length).map
    (fun i => listMean (vs.map (fun v => v.getD i 0)))

/-- Modelled from the spec: `Diffusion.sample_q` (in the absent
`diffusion/diffusion.py`) returns `alpha_t * x0 + sigma_t * epsilon`,
broadcasting the per-batch-element scalar `t` over the element's remaining
dimensions. -/
def sample_q (alpha sigma : ℚ → ℚ) (x0 : Tensor) (ts : Batch1)
    (epsilon : Tensor) : Tensor :=
  List.zipWith3
    (fun row t erow =>
      List.zipWith (fun x e => alpha t * x + sigma t * e) row erow)
    x0 ts epsilon

structure LossesOut where
  vq_loss : ℚ
  mse : ℚ
  ts : Batch1
  mses : Batch1
  mses_dict : List (String × Batch1)

/-- The `named_preds` dict `losses` builds: `predictions()` applied to the
noised inputs, the sampled times, the passthrough conditioning, and the
labels. -/
def namedPredsOf (M : VQVAEModel) (inputs : Tensor) (labels : List ℤ)
    (ts : Batch1) (epsilon : Tensor) : List (String × Tensor) :=
  M.predictions (sample_q M.alpha M.sigma inputs ts epsilon) ts
    (M.vq (M.encoder inputs)).passthrough labels

/-- `VQVAE.losses`: encode, quantize, quantization loss, noise via
`sample_q`, run the predictors, and aggregate the squared errors exactly as
lines 52–75 do. -/
def VQVAE.losses (M : VQVAEModel) (inputs : Tensor) (labels : List ℤ)
    (ts : Batch1) (epsilon : Tensor) : LossesOut :=
  let encoder_out := M.encoder inputs
  let vq_out := M.vq encoder_out
  let vq_l := M.vq_loss encoder_out vq_out.embedded
  let noised_inputs := sample_q M.alpha M.sigma inputs ts epsilon
  let named_preds := M.predictions noised_inputs ts vq_out.passthrough labels
  let mses_dict := named_preds.map (fun np => (np.1, perElementMSE np.2 epsilon))
  let mses := stackMean (mses_dict.map Prod.snd)
  let mse := listMean mses
  ⟨vq_l, mse, ts, mses, mses_dict⟩

/-- Reading a list back off by position: `getD` over its index range. -/
theorem range_map_getD (v : List ℚ) :
    (List.range v.length).map (fun i => v.getD i 0) = v := by
  induction v with
  | nil => rfl
  | cons a t ih =>
    rw [List.length_cons, List.range_succ_eq_map, List.map_cons, List.map_map]
    exact congrArg (a :: ·) ih

/-- Column sums of a stack of equal-length vectors add up to the sum of the
vectors' own sums. -/
theorem sum_columns_eq_sum_rows (vs : List Batch1) (N : ℕ)
    (h : ∀ v ∈ vs, v.length = N) :
    ((List.range N).map (fun i => (vs.map (fun v => v.getD i 0)).sum)).sum =
      (vs.map List.sum).sum := by
  induction vs with
  | nil => simp
  | cons v t ih =>
    simp only [List.map_cons, List.sum_cons]
    rw [List.sum_map_add]
    have hv : v.length = N := h v (List.mem_cons_self v t)
    have ht : ∀ w ∈ t, w.length = N := fun w hw => h w (List.mem_cons_of_mem v hw)
    rw [ih ht, ← hv, range_map_getD]

/-- The mean of the columnwise means of a nonempty stack of equal-length
vectors is the grand total divided by the number of entries. -/
theorem listMean_stackMean (vs : List Batch1) (N : ℕ)
    (h : ∀ v ∈ vs, v.length = N) (hne : vs ≠ []) :
    listMean (stackMean vs) = (vs.map List.sum).sum / ((vs.length : ℚ) * N) := by
  have hhead : (vs.headD []).length = N := by
    cases vs with
    | nil => exact absurd rfl hne
    | cons v t => exact h v (List.mem_cons_self v t)
  have hcols : ∀ i : ℕ, (vs.map (fun v => v.getD i 0)).length = vs.length :=
    fun i => List.length_map vs _
  unfold stackMean listMean
  rw [hhead]
  have hdiv :
      ((List.range N).map
        (fun i => (vs.map (fun v => v.getD i 0)).sum /
          ((vs.map (fun v => v.getD i 0)).length : ℚ))).sum =
      ((List.range N).map
        (fun i => (vs.map (fun v => v.getD i 0)).sum)).sum / (vs.length : ℚ) := by
    simp only [hcols, div_eq_mul_inv]
    rw [← List.sum_map_mul_right]
  rw [hdiv, sum_columns_eq_sum_rows vs N h, List.length_map, List.length_range,
    div_div]

/-- C4: `losses()` returns the quantization loss of the encoder output
against the quantized embedding; the `ts` it sampled (length `N`, every
value in `[0,1)`); the per-predictor squared-error breakdown against the
exact `epsilon` that `sample_q` injected; the per-element breakdown; and a
combined error equal to the mean over predictors and batch elements of the
(per-element mean) squared difference between predictor output and injected
noise. -/
theorem c4_losses_shape_and_mse (M : VQVAEModel) (inputs : Tensor)
    (labels : List ℤ) (ts : Batch1) (epsilon : Tensor) (N : ℕ)
    (hts : ts.length = N)
    (htsr : ∀ t ∈ ts, 0 ≤ t ∧ t < 1)
    (heps : epsilon.length = N)
    (hp : ∀ np ∈ namedPredsOf M inputs labels ts epsilon, (np.2).length = N)
    (hne : namedPredsOf M inputs labels ts epsilon ≠ []) :
    (VQVAE.losses M inputs labels ts epsilon).vq_loss =
        M.vq_loss (M.encoder inputs) (M.vq (M.encoder inputs)).embedded ∧
    (VQVAE.losses M inputs labels ts epsilon).ts = ts ∧
    (VQVAE.losses M inputs labels ts epsilon).ts.length = N ∧
    (∀ t ∈ (VQVAE.losses M inputs labels ts epsilon).ts, 0 ≤ t ∧ t < 1) ∧
    (VQVAE.losses M inputs labels ts epsilon).mses_dict =
      (namedPredsOf M inputs labels ts epsilon).map
        (fun np => (np.1, perElementMSE np.2 epsilon)) ∧
    (VQVAE.losses M inputs labels ts epsilon).mses =
      stackMean ((namedPredsOf M inputs labels ts epsilon).map
        (fun np => perElementMSE np.2 epsilon)) ∧
    (VQVAE.losses M inputs labels ts epsilon).mse =
      ((namedPredsOf M inputs labels ts epsilon).map
          (fun np => (perElementMSE np.2 epsilon).sum)).sum /
        (((namedPredsOf M inputs labels ts epsilon).length : ℚ) * N) := by
  refine ⟨rfl, rfl, hts, htsr, rfl, ?_, ?_⟩
  · show stackMean (((namedPredsOf M inputs labels ts epsilon).map
      (fun np => (np.1, perElementMSE np.2 epsilon))).map Prod.snd) = _
    rw [List.map_map]
    rfl
  · show listMean (stackMean (((namedPredsOf M inputs labels ts epsilon).map
      (fun np => (np.1, perElementMSE np.2 epsilon))).map Prod.snd)) = _
    rw [List.map_map]
    have hlen : ∀ v ∈ (namedPredsOf M inputs labels ts epsilon).map
        (Prod.snd ∘ fun np => (np.1, perElementMSE np.2 epsilon)), v.length = N := by
      intro v hv
      rcases List.mem_map.mp hv with ⟨np, hnp, hveq⟩
      have : v = perElementMSE np.2 epsilon := hveq.symm
      rw [this]
      unfold perElementMSE
      rw [List.length_zipWith, hp np hnp, heps, Nat.min_self]
    have hmapne : (namedPredsOf M inputs labels ts epsilon).map
        (Prod.snd ∘ fun np => (np.1, perElementMSE np.2 epsilon)) ≠ [] := by
      intro hcon
      exact hne (List.map_eq_nil_iff.mp hcon)
    rw [listMean_stackMean _ N hlen hmapne, List.length_map, List.map_map]
    rfl

/-- A small concrete orchestrator used to instantiate
`c4_losses_shape_and_mse`. -/
def c4Model : VQVAEModel :=
  ⟨id, fun x => ⟨[], x, x⟩, fun _ => [[0]], fun _ _ => 0, fun _ => 1,
    fun _ => 0, fun xs _ _ _ => [("cond", xs)], 64⟩

/-- Witness for C4 at a batch of one waveform of one sample. -/
theorem c4_losses_shape_and_mse_witness :
    (VQVAE.losses c4Model [[1]] [0] [1/2] [[0]]).mse =
      ((namedPredsOf c4Model [[1]] [0] [1/2] [[0]]).map
          (fun np => (perElementMSE np.2 [[0]]).sum)).sum /
        (((namedPredsOf c4Model [[1]] [0] [1/2] [[0]]).length : ℚ) * 1) :=
  (c4_losses_shape_and_mse c4Model [[1]] [0] [1/2] [[0]] 1 rfl
    (by intro t ht
        rw [List.mem_singleton] at ht
        subst ht
        constructor <;> norm_num)
    rfl
    (by intro np hnp
        simp only [namedPredsOf, c4Model, sample_q, List.mem_singleton] at hnp
        subst hnp
        rfl)
    (by simp [namedPredsOf, c4Model])).2.2.2.2.2.2

/-! ## `TimeScale` (`vq_vae.py` lines 224–243), over ℝ

`forward` computes `scales = self.out(self.time_emb(t) * self.scale).exp()`
where `self.out = Sequential(GELU(), Linear(channels, 1))`; the time
embedding and GELU are opaque componentwise capabilities, the linear
layer's weight row `w` and bias `b` are explicit. The constructor zeroes
the weight and fills the bias with `log(initial) / scale`. -/

noncomputable def timeScaleScales (w : ℕ → ℝ) (b : ℝ) (gelu : ℝ → ℝ)
    (time_emb : ℝ → ℕ → ℝ) (channels : ℕ) (scale t : ℝ) : ℝ :=
  Real.exp ((∑ i in Finset.range channels, w i * gelu (time_emb t i * scale)) + b)

/-- `TimeScale.forward`: the input is multiplied elementwise by the
broadcast `scales`. -/
noncomputable def TimeScale.forward (w : ℕ → ℝ) (b : ℝ) (gelu : ℝ → ℝ)
    (time_emb : ℝ → ℕ → ℝ) (channels : ℕ) (scale t x : ℝ) : ℝ :=
  x * timeScaleScales w b gelu time_emb channels scale t

/-- The constructor's parameter initialization (lines 235–237):
`weight.mul_(0)` and `bias.fill_(log(initial) / scale)`. -/
noncomputable def timeScaleInitBias (initial scale : ℝ) : ℝ := Real.log initial / scale

/-- C3 (against the code): the gate's multiplier is strictly positive for
every parameter setting, time and input, and at construction it is the
input-independent constant `exp(log(initial) / scale)` — but for the
default `initial = 0.05`, `scale = 3.0` that constant exceeds `3/10`,
six times the claim's "small initial constant" `0.05`: the zeroed weight
makes the linear layer output the bias `log(0.05)/3` and nothing ever
multiplies it back by `scale`, so the untrained gate passes
`0.05^(1/3) ≈ 0.368` of each refinement stage through instead of `0.05`. -/
theorem c3_timescale_positive_but_init_not_small :
    (∀ w b gelu time_emb channels scale t,
      0 < timeScaleScales w b gelu time_emb channels scale t) ∧
    (∀ gelu time_emb channels scale t initial,
      timeScaleScales (fun _ => 0) (timeScaleInitBias initial scale)
          gelu time_emb channels scale t =
        Real.exp (Real.log initial / scale)) ∧
    (3 : ℝ) / 10 < Real.exp (Real.log (1 / 20) / 3) := by
  refine ⟨?_, ?_, ?_⟩
  · intro w b gelu time_emb channels scale t
    exact Real.exp_pos _
  · intro gelu time_emb channels scale t initial
    unfold timeScaleScales timeScaleInitBias
    simp
  · have hm3 : Real.exp (Real.log (1 / 20) / 3) ^ (3 : ℕ) = 1 / 20 := by
      rw [← Real.exp_nat_mul]
      rw [show ((3 : ℕ) : ℝ) * (Real.log (1 / 20) / 3) = Real.log (1 / 20) by
        push_cast
        ring]
      exact Real.exp_log (by norm_num)
    have hpos : (0 : ℝ) < Real.exp (Real.log (1 / 20) / 3) := Real.exp_pos _
    nlinarith [hm3, hpos, sq_nonneg (Real.exp (Real.log (1 / 20) / 3) - 3 / 10),
      sq_nonneg (Real.exp (Real.log (1 / 20) / 3) + 3 / 10)]

end VQVoiceSwap
